import Mathlib

/-!
Verification of the humble-bundle canary program (`src/humble-bundle-canary.py`).

This file gives a shallow embedding of the program into Lean.  Pure string
processing (the topic formatter, the JSON serialization, the quote-stripping
comparison) is translated directly; the external collaborators (HTTP fetch,
HTML parsing, the S3 object store, the SNS publish call) are modelled by an
explicit environment record whose fields describe one behaviour of each
collaborator during a run, and the fallible Python functions become
`Except String`-valued Lean functions where a `.error` value models a raised
Python exception.
-/

/-! ### Characters

Quote and brace characters are referred to through named constants. -/

def squote : Char := Char.ofNat 39

def dquote : Char := Char.ofNat 34

def lbrace : Char := Char.ofNat 123

def rbrace : Char := Char.ofNat 125

/-- Python 2 `\w` without `re.UNICODE`: `[a-zA-Z0-9_]`. -/
def isWordChar (c : Char) : Bool :=
  (decide ('a' ≤ c) && decide (c ≤ 'z')) ||
  (decide ('A' ≤ c) && decide (c ≤ 'Z')) ||
  (decide ('0' ≤ c) && decide (c ≤ '9')) ||
  c == '_'

/-- Python `\s`: space, tab, newline, carriage return, vertical tab, form feed. -/
def isSpaceChar (c : Char) : Bool :=
  c == ' ' || c == '\t' || c == '\n' || c == '\r' ||
  c == Char.ofNat 11 || c == Char.ofNat 12

/-- The character class `[\w\s]` used by both substitution patterns. -/
def isWS (c : Char) : Bool := isWordChar c || isSpaceChar c

/-! ### The two regex substitutions of `format_topic`

`format_topic` performs `re.sub(r' presented by [\w\s]+$', '', ...)` followed
by `re.sub(r'The Humble [\w\s]+ Bundle: ', '', ...)`.  Both are modelled
character-exactly, including Python's leftmost-match scanning, the greedy
backtracking of `[\w\s]+`, and the fact that `re.sub` does not rescan the
text produced by a replacement. -/

/-- The literal part `" presented by "` of the first pattern. -/
def pb_lit : List Char := [' ', 'p', 'r', 'e', 's', 'e', 'n', 't', 'e', 'd', ' ', 'b', 'y', ' ']

/-- The literal part `"The Humble "` of the second pattern. -/
def hbA : List Char := ['T', 'h', 'e', ' ', 'H', 'u', 'm', 'b', 'l', 'e', ' ']

/-- The literal part `" Bundle: "` of the second pattern. -/
def hbB : List Char := [' ', 'B', 'u', 'n', 'd', 'l', 'e', ':', ' ']

/-- `after_lit pat l` returns `some rest` when `pat` is a prefix of `l`,
with `rest` the remainder of `l` after `pat`. -/
def after_lit : List Char → List Char → Option (List Char)
  | [], l => some l
  | _ :: _, [] => none
  | p :: ps, c :: cs => if c = p then after_lit ps cs else none

/-- Does `' presented by [\w\s]+$'` match starting at the head of `l`?
Because `[\w\s]+` is greedy and `\s` contains the newline, the match (when
one exists) always extends to the very end of the string, so the pattern
matches at this position iff the text after `" presented by "` is a
non-empty run of `[\w\s]` characters reaching the end. -/
def pb_tail_ok (l : List Char) : Bool :=
  match after_lit pb_lit l with
  | none => false
  | some rest => !rest.isEmpty && rest.all isWS

/-- `re.sub(r' presented by [\w\s]+$', '', l)`: scan left to right for the
first position where the pattern matches; the match runs to the end of the
string and is replaced by the empty string. -/
def sub_pb : List Char → List Char
  | [] => []
  | c :: cs => if pb_tail_ok (c :: cs) then [] else c :: sub_pb cs

/-- Greedy backtracking for `[\w\s]+` in the second pattern: try the run
length `k, k-1, ..., 1` and return the remainder after `" Bundle: "` for the
first length whose continuation matches. -/
def hb_k : Nat → List Char → Option (List Char)
  | 0, _ => none
  | k + 1, rest =>
    match after_lit hbB (rest.drop (k + 1)) with
    | some r => some r
    | none => hb_k k rest

/-- Does `'The Humble [\w\s]+ Bundle: '` match starting at the head of `l`?
If so, return the remainder of `l` after the match.  The greedy `[\w\s]+`
first consumes the maximal `[\w\s]` run and then backtracks. -/
def hb_match (l : List Char) : Option (List Char) :=
  match after_lit hbA l with
  | none => none
  | some rest => hb_k (rest.takeWhile isWS).length rest

/-- Fuelled scan for `re.sub(r'The Humble [\w\s]+ Bundle: ', '', l)`:
at each position, if the pattern matches, drop the match (replacement is
empty) and continue after it without rescanning; otherwise keep the
character.  Every match consumes at least 21 characters, so fuel equal to
the length of the list always suffices. -/
def sub_hb_fuel : Nat → List Char → List Char
  | 0, l => l
  | _ + 1, [] => []
  | fuel + 1, c :: cs =>
    match hb_match (c :: cs) with
    | some rest => sub_hb_fuel fuel rest
    | none => c :: sub_hb_fuel fuel cs

/-- `re.sub(r'The Humble [\w\s]+ Bundle: ', '', l)`. -/
def sub_hb (l : List Char) : List Char := sub_hb_fuel l.length l

/-! ### The topic formatter (`format_topic`, lines 142-148) -/

/-- Python `str.strip(chars)`: remove the characters of `cset` from both
ends of the list. -/
def py_strip (cset : List Char) (l : List Char) : List Char :=
  ((l.dropWhile (fun c => cset.contains c)).reverse.dropWhile
    (fun c => cset.contains c)).reverse

/-- The character set of `topic_html.strip(' \n')`. -/
def strip_set : List Char := [' ', '\n']

/-- The cleaning pipeline of `format_topic`: trim, remove the
`presented by` suffix clause, remove the `The Humble ... Bundle: `
clauses. -/
def clean_topic (s : String) : List Char :=
  sub_hb (sub_pb (py_strip strip_set s.data))

/-- The body of the formatted topic (everything between the wrapping
quotes): the cleaned string, ellipsized to `topic[0:27] + "..."` when its
length exceeds 30. -/
def format_core (s : String) : List Char :=
  let t := clean_topic s
  if 30 < t.length then t.take 27 ++ ['.', '.', '.'] else t

/-- `format_topic`: clean, ellipsize, and wrap in single quotes. -/
def format_topic (topic_html : String) : String :=
  String.mk (squote :: format_core topic_html ++ [squote])

/-! ### JSON serialization (`json.dumps` as used on the topic dictionary)

The program serializes the topic dictionary with Python 2 `json.dumps`
using the default options: item separator `", "`, key separator `": "`,
`ensure_ascii=True` (non-ASCII characters become `\uXXXX` escapes, with
surrogate pairs above `0xFFFF`). -/

/-- Lowercase hexadecimal digit. -/
def hexDigitChar (n : Nat) : Char :=
  if n < 10 then Char.ofNat (48 + n) else Char.ofNat (87 + n)

/-- Four lowercase hex digits. -/
def hex4 (n : Nat) : List Char :=
  [hexDigitChar (n / 4096 % 16), hexDigitChar (n / 256 % 16),
   hexDigitChar (n / 16 % 16), hexDigitChar (n % 16)]

/-- `json.dumps` escaping of a single character. -/
def json_escape_char (c : Char) : List Char :=
  if c = dquote then ['\\', dquote]
  else if c = '\\' then ['\\', '\\']
  else if c = '\n' then ['\\', 'n']
  else if c = '\t' then ['\\', 't']
  else if c = '\r' then ['\\', 'r']
  else if c = Char.ofNat 8 then ['\\', 'b']
  else if c = Char.ofNat 12 then ['\\', 'f']
  else if c.toNat < 32 then '\\' :: 'u' :: hex4 c.toNat
  else if c.toNat < 127 then [c]
  else if c.toNat < 65536 then '\\' :: 'u' :: hex4 c.toNat
  else
    let n := c.toNat - 65536
    ('\\' :: 'u' :: hex4 (55296 + n / 1024)) ++ ('\\' :: 'u' :: hex4 (56320 + n % 1024))

/-- A JSON string literal. -/
def json_string (s : String) : List Char :=
  dquote :: (s.data.map json_escape_char).flatten ++ [dquote]

/-- A JSON array of strings. -/
def json_list_str (items : List String) : List Char :=
  '[' :: List.intercalate [',', ' '] (items.map json_string) ++ [']']

/-- A topic set: the dictionary mapping each category name to its list of
topics, modelled as an ordered association list (the source's dictionary
has the two fixed keys `games` and `books`; the model fixes their
iteration order). -/
abbrev TopicSet := List (String × List String)

/-- `json.dumps` of the topic dictionary. -/
def json_dumps (t : TopicSet) : String :=
  String.mk (lbrace ::
    List.intercalate [',', ' ']
      (t.map (fun p => json_string p.1 ++ [':', ' '] ++ json_list_str p.2)) ++ [rbrace])

/-- `re.sub(r'[\'"]', '', s)` from `check_new_topics`: delete every single-
and double-quote character. -/
def strip_quotes (s : String) : String :=
  String.mk (s.data.filter (fun c => !(c == squote || c == dquote)))

/-! ### The collaborator environment

One `Env` value fixes the behaviour of every external collaborator for the
duration of a single run. -/

/-- An entry of the S3 `list_objects_v2` response (`Key`/`LastModified`). -/
structure S3Entry where
  key : String
  lastModified : Int
deriving DecidableEq

/-- A parsed HTML document: the results of the two fixed xpath queries.
`titles` models `//*[@class="bundle-info-heading"]/text()` and `links`
models `//div[@id="subtab-container"]/a[not(@id="active-subtab")]/@href`. -/
structure HtmlDoc where
  titles : List String
  links : List String
deriving DecidableEq

/-- Outcome of `requests.get(url)`: either the call raises (that exception
is caught by `scrape_url`) or it yields a response body. -/
inductive FetchResult where
  | raises (msg : String)
  | ok (content : String)
deriving DecidableEq

/-- Outcome of `sns_client.publish(...)`: the call raises, or it returns a
response dictionary in which `ResponseMetadata` may be absent (outer
`Option`) and, inside it, `HTTPStatusCode` may be absent (inner
`Option`). -/
inductive PublishOutcome where
  | raises (msg : String)
  | response (metadata : Option (Option Nat))
deriving DecidableEq

/-- The behaviour of the external collaborators during one run. -/
structure Env where
  /-- `requests.get`. -/
  fetch : String → FetchResult
  /-- `lxml.html.fromstring`; an `.error` models a raised parser exception. -/
  parse : String → Except String HtmlDoc
  /-- `s3_client.list_objects_v2`: raises, or returns the `Contents`
  entries (the empty list models `KeyCount == 0`). -/
  listObjects : Except String (List S3Entry)
  /-- `s3_client.get_object(...)['Body'].read()` by key. -/
  getObject : String → Except String String
  /-- `sns_client.publish` applied to the message. -/
  publish : String → PublishOutcome
  /-- `s3_client.upload_fileobj` of (key, serialized content): `true` on
  success, `false` when the upload raises (caught inside `save_topics`). -/
  upload : String → String → Bool
  /-- The `SNS_TOPIC_ARN` environment variable. -/
  snsArn : Option String
  /-- `datetime.datetime.now().strftime('%Y-%m-%d')`. -/
  today : String

/-! ### Constants (lines 20-23) -/

def MAX_SMS_LENGTH : Nat := 160

def BASE_URL : String := "https://www.humblebundle.com"

/-! ### Snapshot store (`get_files`, `get_latest_file`, `save_topics`,
`check_new_topics`, lines 25-87) -/

/-- `get_files`: list the bucket; on failure log and return `[]`; return
`[]` when the bucket is empty, else the `Contents` entries. -/
def get_files (env : Env) : List S3Entry :=
  match env.listObjects with
  | Except.error _ => []
  | Except.ok contents => contents

/-- `get_latest_file`: if there are no timestamps return `None`; otherwise
sort the timestamps descending, pick the first file whose `LastModified`
equals the maximum (first match in listing order), and fetch its content.
The (unreachable) empty list comprehension of line 37 would raise an
`IndexError`. -/
def get_latest_file (env : Env) (files : List S3Entry) : Except String (Option String) :=
  match files.map (fun f => f.lastModified) with
  | [] => Except.ok none
  | t :: ts =>
    let latest := ts.foldl max t
    match files.find? (fun f => f.lastModified == latest) with
    | none => Except.error "IndexError: list index out of range"
    | some f =>
      match env.getObject f.key with
      | Except.error e => Except.error e
      | Except.ok content => Except.ok (some content)

/-- `save_topics`: `False` for `None` input; otherwise serialize to JSON,
name by the current date, upload; `False` when the upload raises, `True`
on success. -/
def save_topics (env : Env) (topics : Option TopicSet) : Bool :=
  match topics with
  | none => false
  | some t => env.upload (env.today ++ ".json") (json_dumps t)

/-- `check_new_topics`: empty store means new; otherwise retrieve the
latest snapshot (`None` result raises) and compare the quote-stripped
serializations. -/
def check_new_topics (env : Env) (current_topics : TopicSet) : Except String Bool :=
  let prev_topics := get_files env
  if prev_topics.length = 0 then Except.ok true
  else
    match get_latest_file env prev_topics with
    | Except.error e => Except.error e
    | Except.ok none => Except.error "Files found but error retrieving latest one"
    | Except.ok (some latest_topics_json) =>
      Except.ok (strip_quotes (json_dumps current_topics) != strip_quotes latest_topics_json)

/-! ### Scraper (`scrape_html`, `find_topic_urls`, `scrape_url`,
lines 89-125)

In the model a successfully parsed page is always a present tree, so the
`html_tree is None` guards of `scrape_html` and `find_topic_urls` (which
log and return `[]`) are not reachable and the two functions reduce to the
xpath projections. -/

def scrape_html (html_tree : HtmlDoc) : List String := html_tree.titles

def find_topic_urls (html_tree : HtmlDoc) : List String := html_tree.links

/-- `scrape_url(url, False)`: raise on an empty URL, return `[]` when the
fetch raises (logged, non-fatal), propagate a parser exception, and return
the page's own titles. -/
def scrape_sub (env : Env) (url : String) : Except String (List String) :=
  if url = "" then Except.error "No URL provided"
  else
    match env.fetch url with
    | FetchResult.raises _ => Except.ok []
    | FetchResult.ok content =>
      match env.parse content with
      | Except.error e => Except.error e
      | Except.ok html_tree => Except.ok (scrape_html html_tree)

/-- The `for url in topic_urls: topics.extend(scrape_url(url, False))`
loop: accumulate the sub-page titles in order, aborting on the first
raised exception. -/
def scrape_subs (env : Env) : List String → Except String (List String)
  | [] => Except.ok []
  | u :: us =>
    match scrape_sub env u with
    | Except.error e => Except.error e
    | Except.ok ts =>
      match scrape_subs env us with
      | Except.error e => Except.error e
      | Except.ok rest => Except.ok (ts ++ rest)

/-- `scrape_url(url, follow)`.  With `follow` the other-tab links are
resolved against `BASE_URL` and each is scraped with `follow=False`; the
current page's own titles come last. -/
def scrape_url (env : Env) (url : String) (follow : Bool) : Except String (List String) :=
  if url = "" then Except.error "No URL provided"
  else
    match env.fetch url with
    | FetchResult.raises _ => Except.ok []
    | FetchResult.ok content =>
      match env.parse content with
      | Except.error e => Except.error e
      | Except.ok html_tree =>
        if follow then
          match scrape_subs env
              ((find_topic_urls html_tree).map (fun u => BASE_URL ++ u)) with
          | Except.error e => Except.error e
          | Except.ok sub_topics => Except.ok (sub_topics ++ scrape_html html_tree)
        else Except.ok (scrape_html html_tree)

/-! ### Notifier (`send_notification`, lines 127-140) -/

/-- `send_notification`: raise when no ARN is configured; publish (a raise
is wrapped and re-raised); read
`response.get('ResponseMetadata').get('HTTPStatusCode')` — when
`ResponseMetadata` is absent this is `None.get(...)`, an `AttributeError`;
finally return `response_code is not None and response_code == 200`. -/
def send_notification (arn : Option String) (outcome : PublishOutcome) : Except String Bool :=
  match arn with
  | none => Except.error "No SNS ARN was found"
  | some _ =>
    match outcome with
    | PublishOutcome.raises m => Except.error ("Failed to publish SNS topic: " ++ m)
    | PublishOutcome.response none =>
      Except.error "AttributeError: NoneType object has no attribute get"
    | PublishOutcome.response (some response_code) =>
      Except.ok (match response_code with
        | none => false
        | some c => c == 200)

/-! ### Orchestrator (`get_todays_topics`, `lambda_handler`,
lines 150-207) -/

def games_url : String := "https://www.humblebundle.com"

def books_url : String := "https://www.humblebundle.com/books"

/-- `get_todays_topics`: scrape both category start pages with
`follow=True` and format every title.  The Python dictionary iteration
order over the two fixed keys is fixed as `games` then `books` in the
model. -/
def get_todays_topics (env : Env) : Except String TopicSet :=
  match scrape_url env games_url true with
  | Except.error e => Except.error e
  | Except.ok games =>
    match scrape_url env books_url true with
    | Except.error e => Except.error e
    | Except.ok books =>
      Except.ok [("games", games.map format_topic), ("books", books.map format_topic)]

/-- Python `str.upper()` (ASCII uppercasing, as for the two category
names). -/
def py_upper (s : String) : String :=
  String.mk (s.data.map Char.toUpper)

/-- The notification message of lines 178-180: for each category, the
uppercased name, `": "`, the comma-joined topics, and `". "`. -/
def build_notification (topics : TopicSet) : String :=
  topics.foldl
    (fun acc p => acc ++ py_upper p.1 ++ ": " ++ String.intercalate ", " p.2 ++ ". ") ""

/-- `t.strip("'")` applied to one formatted topic (line 200). -/
def strip_topic_quote (t : String) : String :=
  String.mk (py_strip [squote] t.data)

/-- The `json_topics` dictionary of lines 198-200. -/
def strip_topics_quotes (ts : TopicSet) : TopicSet :=
  ts.map (fun p => (p.1, p.2.map strip_topic_quote))

/-- The observable outcome of one `lambda_handler` run: the returned value
(or escaped exception), the result of the send step when it ran, whether
the save step ran, and whether a snapshot object was written. -/
structure RunResult where
  ret : Except String Bool
  sendRes : Option (Except String Bool)
  saveRan : Bool
  snapshotWritten : Bool

/-- `lambda_handler`.  Note that the call to `get_todays_topics` on line
164 is outside every `try` block, so an exception raised there escapes the
entry point; every later step converts its errors into a boolean return. -/
def lambda_handler (env : Env) : RunResult :=
  match get_todays_topics env with
  | Except.error e => ⟨Except.error e, none, false, false⟩
  | Except.ok topics =>
    match check_new_topics env topics with
    | Except.error _ => ⟨Except.ok false, none, false, false⟩
    | Except.ok false => ⟨Except.ok true, none, false, false⟩
    | Except.ok true =>
      let notification := build_notification topics
      if 0 < notification.length ∧ notification.length ≤ MAX_SMS_LENGTH then
        match send_notification env.snsArn (env.publish notification) with
        | Except.error e => ⟨Except.ok false, some (Except.error e), false, false⟩
        | Except.ok notification_sent =>
          let topics_saved := save_topics env (some (strip_topics_quotes topics))
          ⟨Except.ok (notification_sent && topics_saved),
           some (Except.ok notification_sent), true, topics_saved⟩
      else ⟨Except.ok false, none, false, false⟩

/-- `true` iff the run returned a boolean rather than raising. -/
def except_ok (e : Except String Bool) : Bool :=
  match e with
  | Except.ok _ => true
  | Except.error _ => false

/-! ### Auxiliary predicates and concrete data used by the theorems -/

/-- `l` contains no match of the `presented by` suffix pattern at any
position. -/
def pb_free : List Char → Bool
  | [] => true
  | c :: cs => !(pb_tail_ok (c :: cs)) && pb_free cs

/-- `l` contains no match of the `The Humble ... Bundle: ` pattern at any
position. -/
def hb_free : List Char → Bool
  | [] => true
  | c :: cs => (hb_match (c :: cs)).isNone && hb_free cs

/-- The topic set produced by a run in which every fetch fails: both
categories present, both topic lists empty. -/
def topics0 : TopicSet := [("games", []), ("books", [])]

/-- A 31-character string with no clause patterns. -/
def a31 : String := String.mk (List.replicate 31 'a')

/-- A baseline collaborator behaviour: every fetch raises (so scraping
yields empty topic lists), the store is empty, an SNS ARN is configured,
publishing returns HTTP 200, and uploads succeed. -/
def env_base : Env where
  fetch := fun _ => FetchResult.raises "connection error"
  parse := fun _ => Except.error "ParserError"
  listObjects := Except.ok []
  getObject := fun _ => Except.error "NoSuchKey"
  publish := fun _ => PublishOutcome.response (some (some 200))
  upload := fun _ _ => true
  snsArn := some "arn:aws:sns:eu-west-1:1:canary"
  today := "2019-01-01"

/-- Like `env_base` but the publish response carries status 500. -/
def cEnv1 : Env := { env_base with publish := fun _ => PublishOutcome.response (some (some 500)) }

/-- Like `env_base` but fetches succeed and the HTML parser raises. -/
def cEnv3 : Env := { env_base with fetch := fun _ => FetchResult.ok "" }

/-- Like `env_base` but the store holds one snapshot with content
`"stored"`. -/
def cEnv4 : Env :=
  { env_base with
    listObjects := Except.ok [⟨"2019-01-01.json", 5⟩]
    getObject := fun _ => Except.ok "stored" }

/-- Like `env_base` but every page fetch and parse succeeds, yielding one
title `"T"` and one other-tab link `"/books"`. -/
def cEnv7 : Env :=
  { env_base with
    fetch := fun _ => FetchResult.ok "page"
    parse := fun _ => Except.ok ⟨["T"], ["/books"]⟩ }

/-- The document produced by `cEnv7`'s parser. -/
def docT : HtmlDoc := ⟨["T"], ["/books"]⟩

/-- Like `env_base` but every upload fails. -/
def cEnv10 : Env := { env_base with upload := fun _ _ => false }

/-! ## Helper lemmas on the substitution model -/

theorem after_lit_app (p s : List Char) (q : Char) (hq : q ∉ p) :
    after_lit p (s ++ [q]) = (after_lit p s).map (fun r => r ++ [q]) := by
  induction p generalizing s with
  | nil => simp [after_lit]
  | cons a ps ih =>
    cases s with
    | nil =>
      have hqa : ¬ (q = a) := fun h => hq (h ▸ List.mem_cons_self a ps)
      simp [after_lit, hqa]
    | cons c cs =>
      by_cases hca : c = a
      · simpa [after_lit, hca] using ih cs (fun hm => hq (List.mem_cons_of_mem a hm))
      · simp [after_lit, hca]

theorem takeWhile_app_one (p : Char → Bool) (s : List Char) (q : Char) (hq : p q = false) :
    (s ++ [q]).takeWhile p = s.takeWhile p := by
  induction s with
  | nil => simp [List.takeWhile_cons, hq]
  | cons c cs ih =>
    cases hc : p c
    · simp [List.takeWhile_cons, hc]
    · simp [List.takeWhile_cons, hc, ih]

theorem takeWhile_len_le (p : Char → Bool) : ∀ l : List Char, (l.takeWhile p).length ≤ l.length := by
  intro l
  induction l with
  | nil => simp
  | cons c cs ih =>
    rw [List.takeWhile_cons]
    cases hc : p c
    · simp
    · simp
      omega

theorem drop_app_one (s : List Char) (q : Char) (k : Nat) (hk : k ≤ s.length) :
    (s ++ [q]).drop k = s.drop k ++ [q] := by
  rw [List.drop_append_eq_append_drop]
  have h0 : k - s.length = 0 := Nat.sub_eq_zero_of_le hk
  simp [h0]

theorem hb_k_app (q : Char) (hq : q ∉ hbB) :
    ∀ (n : Nat) (s : List Char), n ≤ s.length →
      hb_k n (s ++ [q]) = (hb_k n s).map (fun r => r ++ [q]) := by
  intro n
  induction n with
  | zero => intro s _; simp [hb_k]
  | succ k ih =>
    intro s hn
    have hd : (s ++ [q]).drop (k + 1) = s.drop (k + 1) ++ [q] := drop_app_one s q (k + 1) hn
    simp only [hb_k, hd, after_lit_app hbB (s.drop (k + 1)) q hq]
    cases h : after_lit hbB (s.drop (k + 1)) with
    | some r => simp
    | none => simpa using ih s (Nat.le_of_succ_le hn)

theorem hb_match_app (s : List Char) :
    hb_match (s ++ [squote]) = (hb_match s).map (fun r => r ++ [squote]) := by
  have h1 : isWS squote = false := by decide
  have h2 : squote ∉ hbA := by decide
  have h3 : squote ∉ hbB := by decide
  simp only [hb_match, after_lit_app hbA s squote h2]
  cases h : after_lit hbA s with
  | none => simp
  | some rest =>
    simp only [Option.map_some']
    rw [takeWhile_app_one isWS rest squote h1]
    exact hb_k_app squote h3 _ rest (takeWhile_len_le isWS rest)

theorem hb_match_squote_cons (l : List Char) : hb_match (squote :: l) = none := by
  have h : ¬ (squote = 'T') := by decide
  simp [hb_match, hbA, after_lit, h]

theorem hb_free_app (s : List Char) (h : hb_free s = true) : hb_free (s ++ [squote]) = true := by
  induction s with
  | nil => decide
  | cons c cs ih =>
    simp only [hb_free, Bool.and_eq_true] at h
    have hm : hb_match (c :: cs) = none := Option.isNone_iff_eq_none.mp h.1
    have key : hb_match ((c :: cs) ++ [squote]) = none := by rw [hb_match_app, hm]; rfl
    rw [List.cons_append] at key ⊢
    simp only [hb_free, Bool.and_eq_true]
    exact ⟨by simp [key], ih h.2⟩

theorem sub_hb_fuel_id : ∀ (l : List Char), hb_free l = true → ∀ f, sub_hb_fuel f l = l := by
  intro l
  induction l with
  | nil => intro _ f; cases f <;> rfl
  | cons c cs ih =>
    intro h f
    cases f with
    | zero => rfl
    | succ g =>
      simp only [hb_free, Bool.and_eq_true] at h
      have hm : hb_match (c :: cs) = none := Option.isNone_iff_eq_none.mp h.1
      simp [sub_hb_fuel, hm, ih h.2 g]

theorem sub_hb_id (l : List Char) (h : hb_free l = true) : sub_hb l = l :=
  sub_hb_fuel_id l h l.length

theorem sub_pb_id (l : List Char) (h : pb_free l = true) : sub_pb l = l := by
  induction l with
  | nil => rfl
  | cons c cs ih =>
    simp only [pb_free, Bool.and_eq_true, Bool.not_eq_true'] at h
    simp [sub_pb, h.1, ih h.2]

theorem pb_tail_app (v : List Char) : pb_tail_ok (v ++ [squote]) = false := by
  have hq : squote ∉ pb_lit := by decide
  simp only [pb_tail_ok, after_lit_app pb_lit v squote hq]
  cases h : after_lit pb_lit v with
  | none => rfl
  | some rest =>
    simp only [Option.map_some']
    have hws : (rest ++ [squote]).all isWS = false := by
      rw [List.all_append]
      simp [show isWS squote = false from by decide]
    simp [hws]

theorem sub_pb_app (u : List Char) : sub_pb (u ++ [squote]) = u ++ [squote] := by
  induction u with
  | nil =>
    have h := pb_tail_app []
    rw [List.nil_append] at h ⊢
    simp [sub_pb, h]
  | cons c u ih =>
    have h := pb_tail_app (c :: u)
    rw [List.cons_append] at h ⊢
    simp [sub_pb, h, ih]

theorem py_strip_cons_mem (cset : List Char) (a : Char) (l : List Char)
    (h : cset.contains a = true) : py_strip cset (a :: l) = py_strip cset l := by
  unfold py_strip
  rw [List.dropWhile_cons_of_pos (show (fun c => cset.contains c) a = true from h)]

theorem dropWhile_app_one (p : Char → Bool) (l : List Char) (a : Char) (ha : p a = true) :
    (l ++ [a]).dropWhile p =
      if l.dropWhile p = [] then [] else l.dropWhile p ++ [a] := by
  induction l with
  | nil => simp [List.dropWhile_cons, ha]
  | cons c cs ih =>
    cases hc : p c
    · simp [List.dropWhile_cons, hc]
    · simp [List.dropWhile_cons, hc, ih]

theorem py_strip_app_mem (cset : List Char) (l : List Char) (a : Char)
    (h : cset.contains a = true) : py_strip cset (l ++ [a]) = py_strip cset l := by
  unfold py_strip
  rw [dropWhile_app_one _ l a h]
  by_cases hd : l.dropWhile (fun c => cset.contains c) = []
  · rw [if_pos hd, hd]
  · rw [if_neg hd, List.reverse_append, List.reverse_singleton, List.singleton_append,
      List.dropWhile_cons_of_pos (show (fun c => cset.contains c) a = true from h)]

theorem py_strip_quoted (t : List Char) :
    py_strip strip_set (squote :: t ++ [squote]) = squote :: t ++ [squote] := by
  have h : strip_set.contains squote = false := by decide
  have h2 : ¬ squote ∈ strip_set := by decide
  unfold py_strip
  simp [List.dropWhile_cons, h, h2]

/-! ## C5: ellipsized length -/

/-- C5 (amended): for every input string whose cleaned form (after
whitespace trimming and clause removal) is longer than 30 characters, the
output of `format_topic` excluding the wrapping quotes has length exactly
30: the first 27 characters of the cleaned string followed by the
3-character ellipsis marker `...` (the claim's value 28 is wrong). -/
theorem c5_format_len (x : String) (h : 30 < (clean_topic x).length) :
    (format_core x).length = 30 := by
  simp only [format_core]
  rw [if_pos h, List.length_append, List.length_take]
  simp
  omega

/-- Witness for `c5_format_len` at the 31-character input `a31`. -/
theorem c5_format_len_w : 30 < (clean_topic a31).length ∧ (format_core a31).length = 30 :=
  ⟨by decide, c5_format_len a31 (by decide)⟩

/-- C5 counterexample: the 31-character input `a31` (longer than 30
characters, as the claim requires) formats to a body of length 30, not
28. -/
theorem c5_cex : 30 < a31.length ∧ ¬ ((format_core a31).length = 28) := by decide

/-! ## C8: idempotence of the formatter -/

/-- C8 (amended): `format_topic` is idempotent up to stripping the
boundary quote characters on already-clean input that is short enough:
whenever the trimmed input contains no match of either clause pattern at
any position and has length at most 28, re-formatting the formatted topic
and stripping quotes gives the same string as stripping quotes from the
formatted topic.  (For longer clean input this fails: re-quoting exceeds
30 characters and triggers a second truncation.) -/
theorem c8_format_idem (x : String)
    (hpb : pb_free (py_strip strip_set x.data) = true)
    (hhb : hb_free (py_strip strip_set x.data) = true)
    (hlen : (py_strip strip_set x.data).length ≤ 28) :
    py_strip [squote] (format_topic (format_topic x)).data =
      py_strip [squote] (format_topic x).data := by
  set t := py_strip strip_set x.data with ht
  have h1 : clean_topic x = t := by
    unfold clean_topic
    rw [← ht, sub_pb_id _ hpb, sub_hb_id _ hhb]
  have h2 : format_core x = t := by
    unfold format_core
    rw [h1]
    have hh : ¬ 30 < t.length := by omega
    rw [if_neg hh]
  have h3 : (format_topic x).data = squote :: t ++ [squote] := by
    unfold format_topic; rw [h2]
  have h4 : clean_topic (format_topic x) = squote :: t ++ [squote] := by
    unfold clean_topic
    rw [h3, py_strip_quoted]
    have h5 : sub_pb (squote :: t ++ [squote]) = squote :: t ++ [squote] := by
      have hh := sub_pb_app (squote :: t)
      rw [List.cons_append] at hh
      exact hh
    rw [h5]
    have h6 : hb_free (squote :: t ++ [squote]) = true := by
      have hta : hb_free (t ++ [squote]) = true := hb_free_app t hhb
      show hb_free (squote :: (t ++ [squote])) = true
      simp [hb_free, hb_match_squote_cons, hta]
    exact sub_hb_id _ h6
  have hlen2 : ¬ 30 < (squote :: t ++ [squote]).length := by
    have hl : (squote :: t ++ [squote]).length = t.length + 2 := by simp
    omega
  have h7 : format_core (format_topic x) = squote :: t ++ [squote] := by
    unfold format_core
    rw [h4, if_neg hlen2]
  have h8 : (format_topic (format_topic x)).data =
      squote :: (squote :: t ++ [squote]) ++ [squote] := by
    show squote :: format_core (format_topic x) ++ [squote] = _
    rw [h7]
  have hq : ([squote] : List Char).contains squote = true := by decide
  have hL : py_strip [squote] (squote :: (squote :: t ++ [squote]) ++ [squote]) =
      py_strip [squote] t := by
    rw [show squote :: (squote :: t ++ [squote]) ++ [squote] =
          squote :: ((squote :: (t ++ [squote])) ++ [squote]) from rfl]
    rw [py_strip_cons_mem _ _ _ hq, py_strip_app_mem _ _ _ hq,
        py_strip_cons_mem _ _ _ hq, py_strip_app_mem _ _ _ hq]
  have hR : py_strip [squote] (squote :: t ++ [squote]) = py_strip [squote] t := by
    rw [show squote :: t ++ [squote] = squote :: (t ++ [squote]) from rfl]
    rw [py_strip_cons_mem _ _ _ hq, py_strip_app_mem _ _ _ hq]
  rw [h8, h3, hL, hR]

/-- Witness for `c8_format_idem` at the clean short input `"Game One"`. -/
theorem c8_format_idem_w :
    (pb_free (py_strip strip_set "Game One".data) = true ∧
     hb_free (py_strip strip_set "Game One".data) = true ∧
     (py_strip strip_set "Game One".data).length ≤ 28) ∧
    py_strip [squote] (format_topic (format_topic "Game One")).data =
      py_strip [squote] (format_topic "Game One").data :=
  ⟨⟨by decide, by decide, by decide⟩,
   c8_format_idem "Game One" (by decide) (by decide) (by decide)⟩

/-- C8 counterexample: the 31-character string `a31` contains no
`presented by` suffix and no `The Humble ... Bundle:` clause at all (so it
is already-clean in the claim's sense), yet `format(format(a31))` differs
from `format(a31)` even after stripping the added quoting, because the
re-quoted string is longer than 30 characters and is truncated again. -/
theorem c8_cex :
    pb_free (py_strip strip_set a31.data) = true ∧
    hb_free (py_strip strip_set a31.data) = true ∧
    ¬ (py_strip [squote] (format_topic (format_topic a31)).data =
       py_strip [squote] (format_topic a31).data) := by decide

/-! ## C2: notifier status handling -/

/-- C2 (amended): with an ARN configured and a publish response in hand,
`send_notification` returns `true` iff the metadata's status code equals
200, and returns `false` without raising for any other or absent status
code — provided the `ResponseMetadata` object itself is present.  When the
metadata is absent the function raises an `AttributeError` instead of
returning `false`. -/
theorem c2_send_status (arn : String) (md : Option Nat) :
    send_notification (some arn) (PublishOutcome.response (some md)) =
      Except.ok (md == some 200) ∧
    send_notification (some arn) (PublishOutcome.response none) =
      Except.error "AttributeError: NoneType object has no attribute get" := by
  constructor
  · cases md with
    | none => rfl
    | some c => rfl
  · rfl

/-- C2 counterexample: for a publish response with no `ResponseMetadata`,
`send_notification` raises (models `None.get(...)`), so it does not return
`false` as the claim states. -/
theorem c2_cex :
    send_notification (some "arn:aws:sns:eu-west-1:1:canary") (PublishOutcome.response none) =
      Except.error "AttributeError: NoneType object has no attribute get" ∧
    except_ok (send_notification (some "arn:aws:sns:eu-west-1:1:canary")
      (PublishOutcome.response none)) = false :=
  ⟨rfl, rfl⟩

/-! ## C4: the change check compares quote-stripped serializations -/

/-- C4: for every current topic set and every non-empty store whose latest
snapshot content is retrievable, `check_new_topics` returns `true` iff the
current topic set's serialization and the stored content differ after
deleting all single- and double-quote characters from both sides; in
particular it returns `false` when they differ only in quote characters. -/
theorem c4_check_diff (env : Env) (cur : TopicSet) (content : String)
    (hne : ¬ get_files env = [])
    (hlatest : get_latest_file env (get_files env) = Except.ok (some content)) :
    (check_new_topics env cur = Except.ok true ↔
      ¬ strip_quotes (json_dumps cur) = strip_quotes content) ∧
    (strip_quotes (json_dumps cur) = strip_quotes content →
      check_new_topics env cur = Except.ok false) := by
  have hlen : ¬ (get_files env).length = 0 := by
    intro h; exact hne (List.length_eq_zero.mp h)
  constructor
  · simp only [check_new_topics]
    rw [if_neg hlen, hlatest]
    simp [bne_iff_ne]
  · intro h
    simp only [check_new_topics]
    rw [if_neg hlen, hlatest, h]
    simp

/-- Witness for `c4_check_diff`: a store with one snapshot of content
`"stored"`. -/
theorem c4_check_diff_w :
    (¬ get_files cEnv4 = [] ∧
     get_latest_file cEnv4 (get_files cEnv4) = Except.ok (some "stored")) ∧
    ((check_new_topics cEnv4 topics0 = Except.ok true ↔
        ¬ strip_quotes (json_dumps topics0) = strip_quotes "stored") ∧
     (strip_quotes (json_dumps topics0) = strip_quotes "stored" →
        check_new_topics cEnv4 topics0 = Except.ok false)) :=
  ⟨⟨by decide, rfl⟩, c4_check_diff cEnv4 topics0 "stored" (by decide) rfl⟩

/-! ## C6: the empty store means "new", with no retrieval -/

/-- C6: whenever the storage listing yields no snapshots (empty bucket or
listing failure, both of which make `get_files` return `[]`),
`check_new_topics` returns `true` for every current topic set — and it
does so for every possible behaviour of the object-retrieval collaborator,
which shows no snapshot content is retrieved. -/
theorem c6_check_empty (env : Env) (g : String → Except String String) (cur : TopicSet)
    (h : get_files env = []) :
    check_new_topics { env with getObject := g } cur = Except.ok true := by
  have h2 : get_files { env with getObject := g } = [] := h
  simp [check_new_topics, h2]

/-- Witness for `c6_check_empty`: the empty store of `env_base`, with a
retrieval collaborator that always fails. -/
theorem c6_check_empty_w :
    get_files env_base = [] ∧
    check_new_topics { env_base with getObject := fun _ => Except.error "boom" } topics0 =
      Except.ok true :=
  ⟨by decide, c6_check_empty env_base (fun _ => Except.error "boom") topics0 (by decide)⟩

/-! ## C7: one-level link following, order of aggregation -/

theorem scrape_sub_eq (env : Env) (u : String) : scrape_sub env u = scrape_url env u false := by
  unfold scrape_sub scrape_url
  by_cases hu : u = ""
  · rw [if_pos hu, if_pos hu]
  · rw [if_neg hu, if_neg hu]
    cases hf : env.fetch u with
    | raises m => rfl
    | ok content =>
      cases hp : env.parse content with
      | error e => rfl
      | ok tree => rfl

theorem scrape_subs_forall (env : Env) (us : List String) (ls : List (List String))
    (h : List.Forall₂ (fun u l => scrape_url env (BASE_URL ++ u) false = Except.ok l) us ls) :
    scrape_subs env (us.map (fun u => BASE_URL ++ u)) = Except.ok ls.flatten := by
  induction h with
  | nil => rfl
  | @cons u l us ls hx hrest ih =>
    simp only [List.map_cons, scrape_subs]
    rw [scrape_sub_eq, hx, ih]
    rfl

/-- C7: scraping a fetchable, parseable page with `follow=true` returns
the concatenation, in document order of the discovered links, of the
titles of each linked tab page — each scraped with `follow=false`, so
links found on those pages are never followed — followed by the current
page's own titles; with `follow=false` only the current page's titles are
returned. -/
theorem c7_scrape_follow (env : Env) (url body : String) (doc : HtmlDoc)
    (subLists : List (List String))
    (hu : ¬ url = "")
    (hf : env.fetch url = FetchResult.ok body)
    (hp : env.parse body = Except.ok doc)
    (hsub : List.Forall₂ (fun u l => scrape_url env (BASE_URL ++ u) false = Except.ok l)
      doc.links subLists) :
    scrape_url env url true = Except.ok (subLists.flatten ++ doc.titles) ∧
    scrape_url env url false = Except.ok doc.titles := by
  have hs := scrape_subs_forall env doc.links subLists hsub
  constructor
  · simp only [scrape_url, hf, hp]
    rw [if_neg hu]
    simp only [if_true]
    rw [show find_topic_urls doc = doc.links from rfl, hs]
    rfl
  · simp only [scrape_url, hf, hp]
    rw [if_neg hu]
    rfl

/-- Witness for `c7_scrape_follow`: every page has one title `"T"` and one
other-tab link `"/books"`; following yields the sub-page's titles before
the page's own. -/
theorem c7_scrape_follow_w :
    (¬ games_url = "" ∧ cEnv7.fetch games_url = FetchResult.ok "page" ∧
     cEnv7.parse "page" = Except.ok docT) ∧
    scrape_url cEnv7 games_url true = Except.ok ([["T"]].flatten ++ docT.titles) ∧
    scrape_url cEnv7 games_url false = Except.ok docT.titles :=
  ⟨⟨by decide, rfl, rfl⟩,
   c7_scrape_follow cEnv7 games_url "page" docT [["T"]] (by decide) rfl rfl
     (List.Forall₂.cons rfl List.Forall₂.nil)⟩

/-! ## C3: totality of the entry point -/

/-- C3 (amended): every top-level step of the orchestrator after the
topic-gathering step (change check, send, save) catches its own errors and
converts them into a boolean return, so whenever `get_todays_topics`
succeeds the entry point returns a boolean.  The topic-gathering step
itself is not guarded (line 164 sits outside every `try`), so an exception
raised there — e.g. by the HTML parser, since only the HTTP fetch call is
wrapped — escapes the entry point (see the counterexample). -/
theorem c3_handler_total (env : Env) (ts : TopicSet)
    (h : get_todays_topics env = Except.ok ts) :
    except_ok (lambda_handler env).ret = true := by
  simp only [lambda_handler, h]
  cases hc : check_new_topics env ts with
  | error e => rfl
  | ok b =>
    cases b with
    | false => rfl
    | true =>
      by_cases hcond : 0 < (build_notification ts).length ∧
          (build_notification ts).length ≤ MAX_SMS_LENGTH
      · rw [if_pos hcond]
        cases hs : send_notification env.snsArn (env.publish (build_notification ts)) with
        | error e => rfl
        | ok b2 => rfl
      · rw [if_neg hcond]
        rfl

/-- Witness for `c3_handler_total` at `env_base`. -/
theorem c3_handler_total_w :
    get_todays_topics env_base = Except.ok topics0 ∧
    except_ok (lambda_handler env_base).ret = true :=
  ⟨rfl, c3_handler_total env_base topics0 rfl⟩

/-- C3 counterexample: when the HTML parser raises (`cEnv3`), the
exception escapes `lambda_handler`, so the entry point does not always
return a boolean. -/
theorem c3_cex :
    (lambda_handler cEnv3).ret = Except.error "ParserError" ∧
    except_ok (lambda_handler cEnv3).ret = false :=
  ⟨rfl, rfl⟩

/-! ## C9: the built message is never empty -/

/-- C9: in every run that reaches the notification-building step, the
built message has strictly positive length — the topic set always
contains the two fixed categories and each contributes its uppercased
name, a colon-space and a trailing period-space even when its topic list
is empty — hence the zero-length branch of the message policy check is
unreachable and rejection can only occur via the over-length condition. -/
theorem c9_notification_nonempty (env : Env) (ts : TopicSet)
    (h : get_todays_topics env = Except.ok ts) :
    0 < (build_notification ts).length ∧
    (¬ (0 < (build_notification ts).length ∧
        (build_notification ts).length ≤ MAX_SMS_LENGTH) ↔
      MAX_SMS_LENGTH < (build_notification ts).length) := by
  unfold get_todays_topics at h
  cases h1 : scrape_url env games_url true with
  | error e => rw [h1] at h; exact absurd h (by simp)
  | ok G =>
    rw [h1] at h
    cases h2 : scrape_url env books_url true with
    | error e => rw [h2] at h; exact absurd h (by simp)
    | ok B =>
      rw [h2] at h
      have hts : ts = [("games", G.map format_topic), ("books", B.map format_topic)] := by
        cases h; rfl
      subst hts
      have hexp : build_notification
          [("games", G.map format_topic), ("books", B.map format_topic)] =
          (("" ++ py_upper "games" ++ ": " ++
              String.intercalate ", " (G.map format_topic) ++ ". ") ++
            py_upper "books" ++ ": " ++
              String.intercalate ", " (B.map format_topic) ++ ". ") := rfl
      have e1 : (": " : String).length = 2 := rfl
      have e2 : (". " : String).length = 2 := rfl
      have e0 : ("" : String).length = 0 := rfl
      have hpos : 0 < (build_notification
          [("games", G.map format_topic), ("books", B.map format_topic)]).length := by
        rw [hexp]
        simp only [String.length_append, e0, e1, e2]
        omega
      refine ⟨hpos, ?_⟩
      rw [show MAX_SMS_LENGTH = 160 from rfl]
      omega

/-- Witness for `c9_notification_nonempty` at `env_base`: the empty-topic
message `"GAMES: . BOOKS: . "` is non-empty. -/
theorem c9_notification_nonempty_w :
    get_todays_topics env_base = Except.ok topics0 ∧
    (0 < (build_notification topics0).length ∧
     (¬ (0 < (build_notification topics0).length ∧
         (build_notification topics0).length ≤ MAX_SMS_LENGTH) ↔
       MAX_SMS_LENGTH < (build_notification topics0).length)) :=
  ⟨rfl, c9_notification_nonempty env_base topics0 rfl⟩

/-! ## C1: what happens when the send step fails -/

/-- C1 (amended): in a run where the change check reported a change and
the message passed the policy check, an exception in the send step makes
the run return failure with the save step skipped; but when the notifier
merely returns `false` (non-200 status) without raising, the save step
still runs — only then is the returned value `sent && saved`, so a run
that reaches the send step and obtains a boolean from it returns `true`
iff both the send and the save succeeded. -/
theorem c1_send_save (env : Env) (ts : TopicSet)
    (h1 : get_todays_topics env = Except.ok ts)
    (h2 : check_new_topics env ts = Except.ok true)
    (h3 : 0 < (build_notification ts).length ∧
      (build_notification ts).length ≤ MAX_SMS_LENGTH) :
    (∀ e, send_notification env.snsArn (env.publish (build_notification ts)) =
        Except.error e →
      (lambda_handler env).ret = Except.ok false ∧ (lambda_handler env).saveRan = false ∧
      (lambda_handler env).snapshotWritten = false) ∧
    (∀ b, send_notification env.snsArn (env.publish (build_notification ts)) =
        Except.ok b →
      (lambda_handler env).saveRan = true ∧
      (lambda_handler env).ret =
        Except.ok (b && save_topics env (some (strip_topics_quotes ts)))) := by
  constructor
  · intro e he
    simp only [lambda_handler, h1, h2]
    rw [if_pos h3, he]
    exact ⟨rfl, rfl, rfl⟩
  · intro b hb
    simp only [lambda_handler, h1, h2]
    rw [if_pos h3, hb]
    exact ⟨rfl, rfl⟩

/-- Witness for `c1_send_save` at `cEnv1` (publish answers 500). -/
theorem c1_send_save_w :
    (get_todays_topics cEnv1 = Except.ok topics0 ∧
     check_new_topics cEnv1 topics0 = Except.ok true ∧
     (0 < (build_notification topics0).length ∧
      (build_notification topics0).length ≤ MAX_SMS_LENGTH)) ∧
    ((∀ e, send_notification cEnv1.snsArn (cEnv1.publish (build_notification topics0)) =
        Except.error e →
      (lambda_handler cEnv1).ret = Except.ok false ∧ (lambda_handler cEnv1).saveRan = false ∧
      (lambda_handler cEnv1).snapshotWritten = false) ∧
     (∀ b, send_notification cEnv1.snsArn (cEnv1.publish (build_notification topics0)) =
        Except.ok b →
      (lambda_handler cEnv1).saveRan = true ∧
      (lambda_handler cEnv1).ret =
        Except.ok (b && save_topics cEnv1 (some (strip_topics_quotes topics0))))) :=
  ⟨⟨rfl, rfl, by decide⟩, c1_send_save cEnv1 topics0 rfl rfl (by decide)⟩

/-- C1 counterexample: in the run of `cEnv1` the change check reports a
change and the notifier returns `false` (publish answered 500), yet the
save step runs and a snapshot is written — contradicting the claim that
the save step is skipped whenever the send step fails. -/
theorem c1_cex :
    get_todays_topics cEnv1 = Except.ok topics0 ∧
    check_new_topics cEnv1 topics0 = Except.ok true ∧
    (lambda_handler cEnv1).sendRes = some (Except.ok false) ∧
    (lambda_handler cEnv1).saveRan = true ∧
    (lambda_handler cEnv1).snapshotWritten = true ∧
    (lambda_handler cEnv1).ret = Except.ok false :=
  ⟨rfl, rfl, rfl, rfl, rfl, rfl⟩

/-! ## C10: a false return does not mean nothing was sent -/

/-- C10: when the send step succeeds (publish returned status 200) but the
snapshot save fails, the entry point returns `false` even though the
notification was already dispatched — so a `false` return does not imply
that no notification was sent during the run. -/
theorem c10_send_ok_save_fail (env : Env) (ts : TopicSet)
    (h1 : get_todays_topics env = Except.ok ts)
    (h2 : check_new_topics env ts = Except.ok true)
    (h3 : 0 < (build_notification ts).length ∧
      (build_notification ts).length ≤ MAX_SMS_LENGTH)
    (h4 : send_notification env.snsArn (env.publish (build_notification ts)) =
      Except.ok true)
    (h5 : save_topics env (some (strip_topics_quotes ts)) = false) :
    (lambda_handler env).ret = Except.ok false ∧
    (lambda_handler env).sendRes = some (Except.ok true) ∧
    (lambda_handler env).snapshotWritten = false := by
  simp only [lambda_handler, h1, h2]
  rw [if_pos h3, h4, h5]
  exact ⟨rfl, rfl, rfl⟩

/-- Witness for `c10_send_ok_save_fail` at `cEnv10` (publish answers 200,
every upload fails). -/
theorem c10_send_ok_save_fail_w :
    (get_todays_topics cEnv10 = Except.ok topics0 ∧
     check_new_topics cEnv10 topics0 = Except.ok true ∧
     (0 < (build_notification topics0).length ∧
      (build_notification topics0).length ≤ MAX_SMS_LENGTH) ∧
     send_notification cEnv10.snsArn (cEnv10.publish (build_notification topics0)) =
       Except.ok true ∧
     save_topics cEnv10 (some (strip_topics_quotes topics0)) = false) ∧
    ((lambda_handler cEnv10).ret = Except.ok false ∧
     (lambda_handler cEnv10).sendRes = some (Except.ok true) ∧
     (lambda_handler cEnv10).snapshotWritten = false) :=
  ⟨⟨rfl, rfl, by decide, rfl, rfl⟩,
   c10_send_ok_save_fail cEnv10 topics0 rfl rfl (by decide) rfl rfl⟩
